import Mathlib

/-!
Shallow embedding of `src/main.py` (llm-analyser): a batch tool that extracts
text from `.docx` files, asks a generation service for an analytical essay per
file, and writes one Markdown report per result.

External collaborators (the `ollama` client, the `python-docx` parser and the
filesystem) are modelled as explicit inputs: an `Env` records, for one file,
the outcome of client construction, of document parsing and of each
generation call.  Exceptions are modelled with `Except String`, the `String`
being the exception's message.
-/

set_option autoImplicit false

/-! ### Python string primitives used by the source -/

/-- Whitespace as Python `str.strip` / `str.split` treat it (ASCII part). -/
def isWS (c : Char) : Bool :=
  c = ' ' || c = '\t' || c = '\n' || c = '\r' || c = '\x0b' || c = '\x0c'

/-- Python `str.strip()`: drop leading and trailing whitespace. -/
def strip (s : String) : String :=
  ⟨((s.data.dropWhile isWS).reverse.dropWhile isWS).reverse⟩

/-- Core of Python `str.split()` with no argument: split on runs of
whitespace, dropping empty pieces. -/
def splitWS : List Char → List (List Char)
  | [] => []
  | [c] => if isWS c then [] else [[c]]
  | c :: d :: cs =>
    if isWS c then splitWS (d :: cs)
    else if isWS d then [c] :: splitWS (d :: cs)
    else
      match splitWS (d :: cs) with
      | t :: r => (c :: t) :: r
      | [] => [[c]]

/-- Python `sep.join(xs)`. -/
def pyJoin (sep : String) : List String → String
  | [] => ""
  | [x] => x
  | x :: y :: rest => x ++ sep ++ pyJoin sep (y :: rest)

/-- Auxiliary for `listStartsWith`. -/
def listStartsWith : List Char → List Char → Bool
  | _, [] => true
  | [], _ :: _ => false
  | c :: cs, d :: ds => c = d && listStartsWith cs ds

/-- Python `str.startswith`. -/
def strStartsWith (s p : String) : Bool := listStartsWith s.data p.data

/-- Python `str.endswith` (used to model the `*.docx` glob on names). -/
def strEndsWith (s p : String) : Bool := listStartsWith s.data.reverse p.data.reverse

/-- `pathlib.Path(s).name`: the component after the last slash. -/
def pathName (s : String) : String :=
  ⟨(s.data.reverse.takeWhile (fun c => c ≠ '/')).reverse⟩

/-- `pathlib.Path(s).stem`: the name without its suffix; the suffix starts at
the last dot of the name provided that dot is neither first nor last. -/
def pathStem (s : String) : String :=
  let n := (pathName s).data
  let rev := n.reverse
  let ext := rev.takeWhile (fun c => c ≠ '.')
  if ext.length = rev.length then ⟨n⟩
  else if rev.drop (ext.length + 1) = [] then ⟨n⟩
  else if ext = [] then ⟨n⟩
  else ⟨(rev.drop (ext.length + 1)).reverse⟩

/-- Decimal digit character, for formatting counters and counts. -/
def digitChar : Nat → Char
  | 0 => '0' | 1 => '1' | 2 => '2' | 3 => '3' | 4 => '4'
  | 5 => '5' | 6 => '6' | 7 => '7' | 8 => '8' | _ => '9'

/-- Decimal digits of `n`, most significant first; `fuel` bounds recursion
(`fuel > n` suffices) so the definition is structural and computable. -/
def natDigitsAux : Nat → Nat → List Char
  | 0, _ => []
  | fuel + 1, n =>
    if n < 10 then [digitChar n]
    else natDigitsAux fuel (n / 10) ++ [digitChar (n % 10)]

/-- Decimal representation of a natural number (Python `str(n)` / `f"{n}"`). -/
def natRepr (n : Nat) : String := ⟨natDigitsAux (n + 1) n⟩

/-- Python `f"{n:02d}"`: decimal, zero-padded to width 2. -/
def format02d (n : Nat) : String :=
  if (natRepr n).data.length < 2 then "0" ++ natRepr n else natRepr n

/-- Characters kept verbatim by the output-directory slug (`[a-zA-Z0-9]`). -/
def isAlnumAscii (c : Char) : Bool := c.isAlpha || c.isDigit

/-- Auxiliary for `slugify`: the flag records whether we are inside a run of
non-alphanumeric characters whose replacement `_` was already emitted. -/
def slugAux : Bool → List Char → List Char
  | _, [] => []
  | inRun, c :: cs =>
    if isAlnumAscii c then c :: slugAux false cs
    else if inRun then slugAux true cs
    else '_' :: slugAux true cs

/-- `re.sub(r'[^a-zA-Z0-9]+', '_', s.lower())` from `analyze_directory`. -/
def slugify (s : String) : String := ⟨slugAux false (s.data.map Char.toLower)⟩

/-- Value of a list of decimal digit characters (proof apparatus: the inverse
of decimal formatting, used to read the counter back off a report filename). -/
def pval (l : List Char) : Nat := l.foldl (fun a c => 10 * a + (c.toNat - 48)) 0

/-- The numeric counter at the front of a report filename. -/
def extractCounter (fname : String) : Nat :=
  pval (fname.data.takeWhile Char.isDigit)

/-! ### Data model -/

/-- A parsed document as the `python-docx` library presents it: raw paragraph
texts and tables (rows of cell texts). -/
structure Doc where
  paragraphs : List String
  tables : List (List (List String))
deriving Repr, DecidableEq

/-- The `content` dict built by `process_file` (lines 30–35 of the source). -/
structure Content where
  paragraphs : String
  tables : String
  word_count : Nat
  paragraph_count : Nat
deriving Repr, DecidableEq

/-- The result dict returned by `process_file`.  `content = none` models the
empty dict written on the error path; `error = none` models the absence of
the `'error'` key. -/
structure ResultRecord where
  file_path : String
  content : Option Content
  essay : String
  error : Option String
deriving Repr, DecidableEq

/-- External world for one `process_file` call: outcome of `ollama.Client()`,
of `Document(path)` and of `client.generate(model, prompt)` (the `String`
result is the `response['response']` field). -/
structure Env where
  newClient : Except String Unit
  openDoc : String → Except String Doc
  generate : String → String → Except String String

/-! ### File worker (`process_file`, source lines 12–87) -/

/-- Source line 19: stripped, non-empty paragraph texts. -/
def retainedParagraphs (doc : Doc) : List String :=
  (doc.paragraphs.map strip).filter (fun s => s != "")

/-- Source lines 20–28: per-table joined rows of non-empty stripped cells. -/
def tablesContent (tables : List (List (List String))) : List String :=
  tables.filterMap (fun table =>
    let table_text := table.filterMap (fun row =>
      let row_text := (row.map strip).filter (fun s => s != "")
      if row_text.isEmpty then none else some (pyJoin " | " row_text))
    if table_text.isEmpty then none else some (pyJoin "\n" table_text))

/-- Source lines 30–35: the `content` dict. -/
def mkContent (doc : Doc) : Content :=
  { paragraphs := pyJoin "\n\n" (retainedParagraphs doc)
    tables := if !(tablesContent doc.tables).isEmpty
              then pyJoin "\n\n" (tablesContent doc.tables) else ""
    word_count := (splitWS (pyJoin " " (retainedParagraphs doc)).data).length
    paragraph_count := (retainedParagraphs doc).length }

/-- Source line 38: the placeholder essay for content-free documents. -/
def noContentMsg (file_path_str : String) : String :=
  "No readable content found in " ++ pathName file_path_str

/-- Source lines 40–70: the essay-generation prompt (the formatted f-string). -/
def buildPrompt (file_path_str : String) (content : Content) : String :=
  "\nPlease write a comprehensive analytical essay about the document \""
  ++ pathName file_path_str
  ++ "\" with the following structure, formatted in Markdown:\n\n## Document Overview\nBriefly describe the document\x27s purpose and content.\n\n## Key Themes and Topics\nList and describe key themes and topics identified.\n\n## Writing Style and Structure Analysis\nAnalyse the document\x27s writing style and structure.\n\n## Main Arguments or Points Presented\nSummarise the core arguments or points.\n\n## Critical Assessment\nProvide a critical assessment.\n\n## Conclusions and Significance\nSummarise the document\x27s significance and final thoughts.\n\n**Document Statistics:**\n- Word count: "
  ++ natRepr content.word_count
  ++ "\n- Paragraph count: " ++ natRepr content.paragraph_count
  ++ "\n- File path: " ++ file_path_str
  ++ "\n\n**Document Content Preview:**\n" ++ String.mk (content.paragraphs.data.take 500)
  ++ "...\n\n"
  ++ (if content.tables != "" then "**Tables/Structured Data:**\n" ++ content.tables else "")
  ++ "\n            "

/-- The dict built on the exception path of `process_file` (lines 81–87). -/
def errorRecord (file_path_str msg : String) : ResultRecord :=
  { file_path := file_path_str, content := none, essay := "", error := some msg }

/-- Source lines 12–87.  The second component counts invocations of the
generation service (`client.generate`); the Python function performs exactly
that many network calls.  Totality of this function models the `try/except`
boundary: no exception escapes to the caller. -/
def process_file (env : Env) (file_path_str : String) (model_name : String) :
    ResultRecord × Nat :=
  match env.newClient with
  | .error e => (errorRecord file_path_str e, 0)
  | .ok _ =>
    match env.openDoc file_path_str with
    | .error e => (errorRecord file_path_str e, 0)
    | .ok doc =>
      if (mkContent doc).paragraphs == "" then
        ({ file_path := file_path_str, content := some (mkContent doc),
           essay := noContentMsg file_path_str, error := none }, 0)
      else
        match env.generate model_name (buildPrompt file_path_str (mkContent doc)) with
        | .error e => (errorRecord file_path_str e, 1)
        | .ok resp =>
          ({ file_path := file_path_str, content := some (mkContent doc),
             essay := resp, error := none }, 1)

/-! ### Batch orchestrator (`DocxAnalyzer.analyze_directory`, lines 89–153) -/

/-- Source lines 94–96: `rglob("*.docx")` filtered by the lock-file prefix
check, modelled over the recursive listing of the directory. -/
def find_docx_files (allFiles : List String) : List String :=
  allFiles.filter (fun p =>
    strEndsWith (pathName p) ".docx" && !strStartsWith (pathName p) "~$")

/-- Message of the `TypeError` Python raises for `None >= 4` (line 113 when
`os.cpu_count()` is undetermined). -/
def cpuNoneMsg : String :=
  "\x27>=\x27 not supported between instances of \x27NoneType\x27 and \x27int\x27"

/-- Source line 113: `os.cpu_count() >= 4`.  When `os.cpu_count()` returns
`None` the comparison raises a `TypeError`. -/
def use_multiprocessing (cpu_count : Option Nat) : Except String Bool :=
  match cpu_count with
  | none => .error cpuNoneMsg
  | some n => .ok (decide (4 ≤ n))

/-- Source line 115: `min(os.cpu_count() or 2, 8)` (Python `or` maps both
`None` and `0` to the default). -/
def max_workers (cpu_count : Option Nat) : Nat :=
  min (match cpu_count with | none => 2 | some n => if n = 0 then 2 else n) 8

/-- Source lines 139–145: the metadata block of a success report. -/
def reportHeader (timestamp : String) (r : ResultRecord) : String :=
  "# Document Analysis for " ++ pathName r.file_path ++ "\n\n"
  ++ "**Analysis Date:** " ++ timestamp ++ "\n"
  ++ "**Word Count:** "
  ++ (match r.content with | some c => natRepr c.word_count | none => "N/A") ++ "\n"
  ++ "**Paragraph Count:** "
  ++ (match r.content with | some c => natRepr c.paragraph_count | none => "N/A")
  ++ "\n\n---\n\n"

/-- Source line 146: the footer appended after the essay. -/
def reportFooter (model_name : String) : String :=
  "\n\n---\n\n*Generated using Ollama model: " ++ model_name ++ "*"

/-- Source lines 136–146: report content, branching on the presence of the
`'error'` key in the result dict. -/
def renderReport (model_name timestamp : String) (r : ResultRecord) : String :=
  match r.error with
  | some e => "# Error: " ++ e ++ "\n\nFile: " ++ r.file_path ++ "\n"
  | none => reportHeader timestamp r ++ r.essay ++ reportFooter model_name

/-- Source line 133: `f"{self.file_counter:02d}_{file_path.stem}_analysis.md"`. -/
def reportFilename (counter : Nat) (file_path_str : String) : String :=
  format02d counter ++ "_" ++ pathStem file_path_str ++ "_analysis.md"

/-- Source lines 127–151: the collection loop.  `counter` is the value of
`self.file_counter` on entry; each completed result increments it and yields
one `(filename, content)` write. -/
def collectResults (model_name timestamp : String) :
    Nat → List ResultRecord → List (String × String)
  | _, [] => []
  | counter, r :: rest =>
    (reportFilename (counter + 1) r.file_path, renderReport model_name timestamp r)
      :: collectResults model_name timestamp (counter + 1) rest

/-- Per-run external inputs of `analyze_directory`: the detected CPU count,
the external world seen by each worker, and the formatted wall-clock time. -/
structure RunEnv where
  cpu_count : Option Nat
  world : String → Env
  timestamp : String

/-- Observable outcome of one `analyze_directory` call: either the early
return with the no-files message (before the output directory is created),
or a completed run with its output directory, pool choice and written files. -/
inductive AnalyzeResult where
  | noFiles (message : String)
  | completed (output_dir : String) (use_mp : Bool) (workers : Nat)
      (written : List (String × String))
deriving Repr, DecidableEq

/-- Source lines 98–153.  `allFiles` is the recursive listing of `directory`;
`order` is the completion order in which `as_completed` yields the futures (a
permutation of the discovered files).  A raised exception (the `TypeError` of
line 113) is modelled by the `Except.error` result. -/
def analyze_directory (renv : RunEnv) (allFiles : List String) (directory : String)
    (output_dir : Option String) (model_name : String) (order : List String) :
    Except String AnalyzeResult :=
  if (find_docx_files allFiles).isEmpty then
    .ok (.noFiles ("No .docx files found in \x27" ++ directory ++ "\x27"))
  else
    match use_multiprocessing renv.cpu_count with
    | .error e => .error e
    | .ok use_mp =>
      .ok (.completed
        (match output_dir with
         | none => slugify (pathName directory) ++ "_essays"
         | some d => d)
        use_mp
        (max_workers renv.cpu_count)
        (collectResults model_name renv.timestamp 0
          (order.map (fun p => (process_file (renv.world p) p model_name).1))))

/-! ### Concrete values used by witnesses and counterexamples -/

/-- A world whose client construction fails with message `boom`. -/
def envClientFail : Env :=
  ⟨.error "boom", fun _ => .ok ⟨[], []⟩, fun _ _ => .ok "essay"⟩

/-- A document with one non-empty paragraph and no tables. -/
def docHello : Doc := ⟨["hello world", "  "], []⟩

/-- A world where generation succeeds but returns the empty string. -/
def envEmptyGen : Env := ⟨.ok (), fun _ => .ok docHello, fun _ _ => .ok ""⟩

/-- A document whose paragraphs are all whitespace (no readable content). -/
def docEmpty : Doc := ⟨["   ", ""], [[["x"]]]⟩

/-- A world serving `docEmpty`; its generation service always fails, so any
generation call would surface as an error record. -/
def envEmptyDoc : Env :=
  ⟨.ok (), fun _ => .ok docEmpty, fun _ _ => .error "generate was called"⟩

/-- A world where the generation call itself fails. -/
def envGenFail : Env :=
  ⟨.ok (), fun _ => .ok docHello, fun _ _ => .error "connection refused"⟩

/-- A fixed formatted timestamp. -/
def ts0 : String := "2024-01-01 00:00:00"

/-- A run environment with 4 detected CPUs over `envClientFail` worlds. -/
def renv0 : RunEnv := ⟨some 4, fun _ => envClientFail, ts0⟩

/-- A run environment with undetermined parallelism (`os.cpu_count()`
returning `None`) over the same worlds. -/
def renvNone : RunEnv := ⟨none, fun _ => envClientFail, ts0⟩

/-- A directory listing with two target files, a non-target file and a
lock-prefixed file. -/
def allFiles0 : List String :=
  ["docs/a.docx", "docs/b.docx", "docs/notes.txt", "docs/~$a.docx"]

/-- A completion order differing from the submission order. -/
def order0 : List String := ["docs/b.docx", "docs/a.docx"]

/-! ### Sanity checks on concrete inputs -/

example :
    (process_file ⟨.ok (), fun _ => .ok ⟨["  hi there ", " "], []⟩,
        fun _ _ => .ok "essay"⟩ "a/b.docx" "m").1
      = { file_path := "a/b.docx",
          content := some { paragraphs := "hi there", tables := "",
                            word_count := 2, paragraph_count := 1 },
          essay := "essay", error := none } := by decide

example : find_docx_files allFiles0 = ["docs/a.docx", "docs/b.docx"] := by decide

example :
    analyze_directory renv0 allFiles0 "My Docs" none "m" order0
      = .ok (.completed "my_docs_essays" true 4
          [("01_b_analysis.md", renderReport "m" ts0 (errorRecord "docs/b.docx" "boom")),
           ("02_a_analysis.md", renderReport "m" ts0 (errorRecord "docs/a.docx" "boom"))]) := rfl

/-! ### Helper lemmas: splitting on whitespace -/

theorem splitWS_space_cons (b : List Char) : splitWS (' ' :: b) = splitWS b := by
  cases b with
  | nil => simp [splitWS, show isWS ' ' = true from rfl]
  | cons d bs => simp [splitWS, show isWS ' ' = true from rfl]

theorem splitWS_cons_shape (c : Char) (cs : List Char) (h : isWS c = false) :
    ∃ t r, splitWS (c :: cs) = t :: r := by
  cases cs with
  | nil => exact ⟨[c], [], by simp [splitWS, h]⟩
  | cons d cs' =>
    cases hd : isWS d with
    | true => exact ⟨[c], splitWS (d :: cs'), by simp [splitWS, h, hd]⟩
    | false =>
      rcases hs : splitWS (d :: cs') with _ | ⟨t, r⟩
      · exact ⟨[c], [], by simp [splitWS, h, hd, hs]⟩
      · exact ⟨c :: t, r, by simp [splitWS, h, hd, hs]⟩

theorem splitWS_append_space (a b : List Char) :
    splitWS (a ++ ' ' :: b) = splitWS a ++ splitWS b := by
  induction a with
  | nil => simpa [splitWS] using splitWS_space_cons b
  | cons c cs ih =>
    cases cs with
    | nil =>
      cases hc : isWS c with
      | true => simp [splitWS, hc, splitWS_space_cons]
      | false =>
        simp [splitWS, hc, show isWS ' ' = true from rfl, splitWS_space_cons]
    | cons e cs' =>
      cases hc : isWS c with
      | true => simpa [splitWS, hc] using ih
      | false =>
        cases he : isWS e with
        | true =>
          have ih' : splitWS (e :: (cs' ++ ' ' :: b)) = splitWS (e :: cs') ++ splitWS b := by
            simpa using ih
          simp [splitWS, hc, he, ih']
        | false =>
          obtain ⟨t, r, hs⟩ := splitWS_cons_shape e cs' he
          have hx : splitWS (e :: (cs' ++ ' ' :: b)) = (t :: r) ++ splitWS b := by
            simpa [hs] using ih
          simp [splitWS, hc, he, hx, hs]

theorem splitWS_pyJoin_space (l : List String) :
    splitWS (pyJoin " " l).data = (l.map (fun s => splitWS s.data)).flatten := by
  induction l with
  | nil => simp [pyJoin, splitWS, show ("" : String).data = [] from rfl]
  | cons x xs ih =>
    cases xs with
    | nil => simp [pyJoin]
    | cons y rest =>
      have hdata : (x ++ " " ++ pyJoin " " (y :: rest)).data
          = x.data ++ ' ' :: (pyJoin " " (y :: rest)).data := by
        rw [String.data_append, String.data_append,
          show (" " : String).data = [' '] from rfl]
        simp
      show splitWS (x ++ " " ++ pyJoin " " (y :: rest)).data = _
      rw [hdata, splitWS_append_space, ih]
      simp

/-! ### Helper lemmas: decimal formatting and filename counters -/

theorem digitChar_isDigit (d : Nat) (h : d < 10) : (digitChar d).isDigit = true := by
  interval_cases d <;> decide

theorem digitChar_toNat (d : Nat) (h : d < 10) : (digitChar d).toNat = 48 + d := by
  interval_cases d <;> decide

theorem natDigitsAux_all_digit (fuel : Nat) :
    ∀ n, ∀ c ∈ natDigitsAux fuel n, c.isDigit = true := by
  induction fuel with
  | zero => intro n c hc; simp [natDigitsAux] at hc
  | succ fuel ih =>
    intro n c hc
    by_cases h : n < 10
    · simp [natDigitsAux, h] at hc
      subst hc; exact digitChar_isDigit n h
    · simp [natDigitsAux, h] at hc
      rcases hc with hc | hc
      · exact ih (n / 10) c hc
      · subst hc; exact digitChar_isDigit (n % 10) (Nat.mod_lt n (by omega))

theorem natDigitsAux_foldl (fuel : Nat) :
    ∀ n a, n < fuel →
      (natDigitsAux fuel n).foldl (fun a c => 10 * a + (c.toNat - 48)) a
        = a * 10 ^ (natDigitsAux fuel n).length + n := by
  induction fuel with
  | zero => intro n a h; exact absurd h (Nat.not_lt_zero n)
  | succ fuel ih =>
    intro n a h
    by_cases h10 : n < 10
    · simp [natDigitsAux, h10, digitChar_toNat n h10]
      omega
    · have hdiv : n / 10 < fuel := by
        have h1 : 0 < n := by omega
        have := Nat.div_lt_self h1 (by norm_num : 1 < 10)
        omega
      have hmod : n % 10 < 10 := Nat.mod_lt n (by omega)
      simp only [natDigitsAux, h10, if_false, List.foldl_append, ih (n / 10) a hdiv,
        List.foldl_cons, List.foldl_nil, digitChar_toNat (n % 10) hmod,
        List.length_append, List.length_cons, List.length_nil]
      have hdm := Nat.div_add_mod n 10
      have hsimp : 48 + n % 10 - 48 = n % 10 := by omega
      rw [hsimp, pow_succ, ← Nat.mul_assoc]
      generalize a * 10 ^ (natDigitsAux fuel (n / 10)).length = P
      omega

theorem pval_natDigits (n : Nat) : pval (natDigitsAux (n + 1) n) = n := by
  have h := natDigitsAux_foldl (n + 1) n 0 (Nat.lt_succ_self n)
  simpa [pval] using h

theorem pval_format02d (n : Nat) : pval (format02d n).data = n := by
  rw [format02d]
  by_cases h : (natRepr n).data.length < 2
  · rw [if_pos h, String.data_append, show ("0" : String).data = ['0'] from rfl,
      List.singleton_append]
    show pval ('0' :: (natRepr n).data) = n
    have hz : pval ('0' :: (natRepr n).data) = pval (natRepr n).data := rfl
    rw [hz]
    exact pval_natDigits n
  · rw [if_neg h]
    exact pval_natDigits n

theorem format02d_all_digit (n : Nat) :
    ∀ c ∈ (format02d n).data, c.isDigit = true := by
  intro c hc
  rw [format02d] at hc
  by_cases h : (natRepr n).data.length < 2
  · rw [if_pos h, String.data_append,
      show ("0" : String).data = ['0'] from rfl] at hc
    rcases List.mem_append.1 hc with hc | hc
    · simp at hc; subst hc; decide
    · exact natDigitsAux_all_digit (n + 1) n c hc
  · rw [if_neg h] at hc
    exact natDigitsAux_all_digit (n + 1) n c hc

theorem takeWhile_digits_append (l1 l2 : List Char)
    (h : ∀ c ∈ l1, c.isDigit = true) :
    (l1 ++ '_' :: l2).takeWhile Char.isDigit = l1 := by
  induction l1 with
  | nil =>
    simp [List.takeWhile_cons, show ('_').isDigit = false from rfl]
  | cons c cs ih =>
    have hcd : c.isDigit = true := h c (List.mem_cons_self c cs)
    simp [List.takeWhile_cons, hcd,
      ih (fun x hx => h x (List.mem_cons_of_mem c hx))]

theorem extractCounter_reportFilename (c : Nat) (p : String) :
    extractCounter (reportFilename c p) = c := by
  unfold extractCounter reportFilename
  rw [show (format02d c ++ "_" ++ pathStem p ++ "_analysis.md").data
        = (format02d c).data
          ++ '_' :: ((pathStem p).data ++ ("_analysis.md" : String).data) from by
    simp [String.data_append, show ("_" : String).data = ['_'] from rfl]]
  rw [takeWhile_digits_append _ _ (format02d_all_digit c)]
  exact pval_format02d c

/-! ### Helper lemmas: the collection loop -/

theorem collectResults_length (mn ts : String) (c : Nat) (rs : List ResultRecord) :
    (collectResults mn ts c rs).length = rs.length := by
  induction rs generalizing c with
  | nil => rfl
  | cons r rest ih => simp [collectResults, ih]

theorem collectResults_map_fst (mn ts : String) (c : Nat) (rs : List ResultRecord) :
    (collectResults mn ts c rs).map Prod.fst
      = (List.enumFrom c rs).map (fun ir => reportFilename (ir.1 + 1) ir.2.file_path) := by
  induction rs generalizing c with
  | nil => rfl
  | cons r rest ih => simp [collectResults, List.enumFrom, ih]

theorem collectResults_filenames_nodup (mn ts : String) (c : Nat)
    (rs : List ResultRecord) :
    ((collectResults mn ts c rs).map Prod.fst).Nodup := by
  have hmap : ((collectResults mn ts c rs).map Prod.fst).map extractCounter
      = ((List.enumFrom c rs).map Prod.fst).map (fun i => i + 1) := by
    rw [collectResults_map_fst, List.map_map, List.map_map]
    exact List.map_congr_left (fun ir _ => extractCounter_reportFilename _ _)
  have hnodup : (((collectResults mn ts c rs).map Prod.fst).map extractCounter).Nodup := by
    rw [hmap, List.enumFrom_map_fst]
    exact (List.nodup_range' ..).map (fun a b hab => by omega)
  exact hnodup.of_map

/-! ### Helper lemmas: string prefixes -/

theorem listStartsWith_iff (p : List Char) :
    ∀ s, listStartsWith s p = true ↔ ∃ t, s = p ++ t := by
  induction p with
  | nil => intro s; simp [listStartsWith]
  | cons d ds ih =>
    intro s
    cases s with
    | nil => simp [listStartsWith]
    | cons c cs => simp [listStartsWith, ih cs, List.cons_append]

theorem renderReport_head_of_none (mn ts : String) (r : ResultRecord)
    (h : r.error = none) :
    ∃ tail, (renderReport mn ts r).data
      = ("# Document Analysis for " : String).data ++ tail := by
  simp only [renderReport, h, reportHeader, reportFooter, String.data_append,
    List.append_assoc]
  exact ⟨_, rfl⟩

/-! ### Claim C1 -/

/-- C1: the File Worker never raises to its caller (its embedding is a total
function), and any exception from any step — client construction, document
parsing, or generation — is converted into a result record whose `error`
field holds the exception's message, with `content` and `essay` empty. -/
theorem process_file_failure_boundary (env : Env) (p m e : String)
    (h : env.newClient = .error e
       ∨ (env.newClient = .ok () ∧ env.openDoc p = .error e)
       ∨ (∃ doc, env.newClient = .ok () ∧ env.openDoc p = .ok doc
            ∧ (mkContent doc).paragraphs ≠ ""
            ∧ env.generate m (buildPrompt p (mkContent doc)) = .error e)) :
    (process_file env p m).1
      = { file_path := p, content := none, essay := "", error := some e } := by
  rcases h with h1 | ⟨h1, h2⟩ | ⟨doc, h1, h2, h3, h4⟩
  · simp [process_file, h1, errorRecord]
  · simp [process_file, h1, h2, errorRecord]
  · simp [process_file, h1, h2, h3, h4, errorRecord]

/-- Witness for `process_file_failure_boundary`: a failing client
construction on a concrete file. -/
theorem process_file_failure_boundary_witness :
    (process_file envClientFail "f.docx" "m").1
      = { file_path := "f.docx", content := none, essay := "", error := some "boom" } :=
  process_file_failure_boundary envClientFail "f.docx" "m" "boom" (Or.inl rfl)

/-! ### Claim C2 -/

/-- C2 counterexample: when the generation service succeeds but returns the
empty string, the result record has no error and yet its essay is the empty
string, refuting the claimed invariant (error set with empty essay, or error
absent with non-empty essay) at this concrete record. -/
theorem result_invariant_counterexample :
    ¬ (((process_file envEmptyGen "d.docx" "m").1.error ≠ none
          ∧ (process_file envEmptyGen "d.docx" "m").1.essay = "")
       ∨ ((process_file envEmptyGen "d.docx" "m").1.error = none
          ∧ (process_file envEmptyGen "d.docx" "m").1.essay ≠ "")) := by
  decide

/-- C2 (amended): either `error` is set, the essay is empty and the content
dict is empty; or `error` is absent and the essay is the no-content
placeholder or exactly the text returned by the generation service — which
may itself be the empty string. -/
theorem result_invariant_amended (env : Env) (p m : String) :
    ((process_file env p m).1.error ≠ none ∧ (process_file env p m).1.essay = ""
        ∧ (process_file env p m).1.content = none)
    ∨ ((process_file env p m).1.error = none
        ∧ ((process_file env p m).1.essay = noContentMsg p
            ∨ ∃ prompt, env.generate m prompt
                = .ok ((process_file env p m).1.essay))) := by
  rcases hc : env.newClient with e | u
  · have hres : (process_file env p m).1 = errorRecord p e := by
      simp [process_file, hc]
    rw [hres]
    simp [errorRecord]
  · rcases hd : env.openDoc p with e | doc
    · have hres : (process_file env p m).1 = errorRecord p e := by
        simp [process_file, hc, hd]
      rw [hres]
      simp [errorRecord]
    · cases hp : (mkContent doc).paragraphs == "" with
      | true =>
        have hres : (process_file env p m).1
            = { file_path := p, content := some (mkContent doc),
                essay := noContentMsg p, error := none } := by
          simp [process_file, hc, hd, hp]
        rw [hres]
        simp
      | false =>
        rcases hg : env.generate m (buildPrompt p (mkContent doc)) with e | resp
        · have hres : (process_file env p m).1 = errorRecord p e := by
            simp [process_file, hc, hd, hp, hg]
          rw [hres]
          simp [errorRecord]
        · have hres : (process_file env p m).1
              = { file_path := p, content := some (mkContent doc),
                  essay := resp, error := none } := by
            simp [process_file, hc, hd, hp, hg]
          rw [hres]
          exact Or.inr ⟨rfl, Or.inr ⟨buildPrompt p (mkContent doc), hg⟩⟩

/-! ### Claim C3 -/

/-- C3: a file whose extracted paragraph text is empty yields the literal
placeholder essay and performs zero generation-service calls (the second
component of `process_file` counts `generate` invocations). -/
theorem empty_content_placeholder (env : Env) (p m : String) (doc : Doc)
    (h1 : env.newClient = .ok ()) (h2 : env.openDoc p = .ok doc)
    (h3 : (mkContent doc).paragraphs = "") :
    process_file env p m
      = ({ file_path := p, content := some (mkContent doc),
           essay := "No readable content found in " ++ pathName p,
           error := none }, 0) := by
  simp [process_file, h1, h2, h3, noContentMsg]

/-- Witness for `empty_content_placeholder`: a document whose paragraphs are
all whitespace (its generation service would fail if it were ever called). -/
theorem empty_content_placeholder_witness :
    (mkContent docEmpty).paragraphs = ""
    ∧ process_file envEmptyDoc "t.docx" "m"
      = ({ file_path := "t.docx", content := some (mkContent docEmpty),
           essay := "No readable content found in " ++ pathName "t.docx",
           error := none }, 0) :=
  ⟨rfl, empty_content_placeholder envEmptyDoc "t.docx" "m" docEmpty rfl rfl rfl⟩

/-! ### Claim C4 -/

/-- C4 (code bug): when parallelism is undetermined (`os.cpu_count()` returns
`None`), line 113 of the source raises a `TypeError` (`None >= 4`) instead of
selecting a thread pool with the minimum of 2 workers; for determined values
the claimed pool choice and size hold (line 115 alone would map `None` to 2,
but it is never reached). -/
theorem pool_choice_cpu_none_raises :
    use_multiprocessing none = Except.error cpuNoneMsg
    ∧ use_multiprocessing (some 3) = Except.ok false
    ∧ use_multiprocessing (some 4) = Except.ok true
    ∧ max_workers (some 3) = 3
    ∧ max_workers (some 16) = 8
    ∧ max_workers none = 2 :=
  ⟨rfl, rfl, rfl, rfl, rfl, rfl⟩

/-! ### Claim C5 -/

/-- C5 counterexample: for an error result the written report content is
solely the error block — it does not begin with the metadata header, so the
header does not precede the error block as claimed. -/
theorem error_report_no_header_counterexample :
    renderReport "m" ts0 (process_file envClientFail "f.docx" "m").1
      = "# Error: boom\n\nFile: f.docx\n"
    ∧ ¬ ∃ rest,
        renderReport "m" ts0 (process_file envClientFail "f.docx" "m").1
          = reportHeader ts0 (process_file envClientFail "f.docx" "m").1 ++ rest := by
  constructor
  · rfl
  · rintro ⟨rest, hr⟩
    have hd := congrArg String.data hr
    rw [String.data_append] at hd
    have hsw : listStartsWith
        (renderReport "m" ts0 (process_file envClientFail "f.docx" "m").1).data
        (reportHeader ts0 (process_file envClientFail "f.docx" "m").1).data = true :=
      (listStartsWith_iff _ _).2 ⟨rest.data, hd⟩
    exact absurd hsw (by decide)

/-- C5 (amended): a success report consists of the metadata header (analysis
timestamp, word count, paragraph count, separator) followed by the essay and
the model footer; an error report consists solely of an error block naming
the message and the file path, with no header. -/
theorem render_report_shape (mn ts : String) (r : ResultRecord) :
    (∀ e, r.error = some e →
        renderReport mn ts r
          = "# Error: " ++ e ++ "\n\nFile: " ++ r.file_path ++ "\n")
    ∧ (r.error = none →
        renderReport mn ts r = reportHeader ts r ++ r.essay ++ reportFooter mn) := by
  constructor
  · intro e he
    simp [renderReport, he]
  · intro he
    simp [renderReport, he]

/-- Witness for `render_report_shape`: a concrete error record renders as the
bare error block. -/
theorem render_report_shape_witness :
    renderReport "m" ts0 (errorRecord "f.docx" "boom")
      = "# Error: boom\n\nFile: f.docx\n" :=
  (render_report_shape "m" ts0 (errorRecord "f.docx" "boom")).1 "boom" rfl

/-! ### Claim C6 -/

/-- C6: for every completion order, the k-th collected result (counting from
0, with the counter starting at 1 for a fresh invocation) is written to
`{NN}_{stem}_analysis.md` where `NN` is the zero-padded counter `k + 1`: the
counter prefixes form the contiguous sequence `1..N` with no gaps or
repeats. -/
theorem report_filenames_contiguous (mn ts : String) (results : List ResultRecord) :
    (collectResults mn ts 0 results).map Prod.fst
      = results.enum.map (fun ir => reportFilename (ir.1 + 1) ir.2.file_path) := by
  rw [collectResults_map_fst]
  rfl

/-! ### Claim C7 -/

/-- C7 counterexample: a directory holding two target files, processed with
undetermined parallelism (`os.cpu_count()` returning `None`): the run aborts
with the line-113 `TypeError` and writes no reports at all, refuting the
claim that every directory with N > 0 target files yields exactly N report
files. -/
theorem undetermined_cpu_no_reports_counterexample :
    find_docx_files allFiles0 ≠ []
    ∧ analyze_directory renvNone allFiles0 "My Docs" none "m" order0
        = Except.error cpuNoneMsg :=
  ⟨by decide, rfl⟩

/-- C7 (amended): a directory containing no target files yields only the
no-files message (before the output directory would be created, and before
the pool choice, so regardless of detected parallelism); a directory with
N > 0 target files yields, when parallelism is determined, a completed run
writing exactly N distinctly named reports in every completion order — and,
when parallelism is undetermined, an aborted run (the `TypeError` of line
113) with no reports written. -/
theorem analyze_directory_file_counts (renv : RunEnv) (allFiles : List String)
    (directory mn : String) (out : Option String) (order : List String)
    (horder : order.Perm (find_docx_files allFiles)) :
    (find_docx_files allFiles = [] →
        analyze_directory renv allFiles directory out mn order
          = .ok (.noFiles ("No .docx files found in \x27" ++ directory ++ "\x27")))
    ∧ (find_docx_files allFiles ≠ [] → ∀ n, renv.cpu_count = some n →
        ∃ odir use_mp workers written,
          analyze_directory renv allFiles directory out mn order
            = .ok (.completed odir use_mp workers written)
          ∧ written.length = (find_docx_files allFiles).length
          ∧ (written.map Prod.fst).Nodup)
    ∧ (find_docx_files allFiles ≠ [] → renv.cpu_count = none →
        analyze_directory renv allFiles directory out mn order
          = Except.error cpuNoneMsg) := by
  refine ⟨?_, ?_, ?_⟩
  · intro hnil
    simp [analyze_directory, hnil]
  · intro hne n hcpu
    have hnonempty : (find_docx_files allFiles).isEmpty = false := by
      cases hfe : find_docx_files allFiles with
      | nil => exact absurd hfe hne
      | cons a as => rfl
    refine ⟨(match out with
        | none => slugify (pathName directory) ++ "_essays"
        | some d => d),
      decide (4 ≤ n), max_workers (some n),
      collectResults mn renv.timestamp 0
        (order.map (fun p => (process_file (renv.world p) p mn).1)), ?_, ?_, ?_⟩
    · simp [analyze_directory, hnonempty, hcpu, use_multiprocessing]
    · rw [collectResults_length, List.length_map, horder.length_eq]
    · exact collectResults_filenames_nodup mn renv.timestamp 0 _
  · intro hne hcpu
    have hnonempty : (find_docx_files allFiles).isEmpty = false := by
      cases hfe : find_docx_files allFiles with
      | nil => exact absurd hfe hne
      | cons a as => rfl
    simp [analyze_directory, hnonempty, hcpu, use_multiprocessing]

/-- Witness for `analyze_directory_file_counts`: four listed files of which
two are targets, collected in reversed completion order, with 4 CPUs for the
determined branch and the `renvNone` run for the undetermined one. -/
theorem analyze_directory_file_counts_witness :
    (∃ odir use_mp workers written,
      analyze_directory renv0 allFiles0 "My Docs" none "m" order0
        = .ok (.completed odir use_mp workers written)
      ∧ written.length = (find_docx_files allFiles0).length
      ∧ (written.map Prod.fst).Nodup)
    ∧ analyze_directory renvNone allFiles0 "My Docs" none "m" order0
        = Except.error cpuNoneMsg := by
  have hperm : order0.Perm (find_docx_files allFiles0) := by decide
  exact ⟨(analyze_directory_file_counts renv0 allFiles0 "My Docs" "m" none order0
      hperm).2.1 (by decide) 4 rfl,
    (analyze_directory_file_counts renvNone allFiles0 "My Docs" "m" none order0
      hperm).2.2 (by decide) rfl⟩

/-! ### Claim C8 -/

/-- C8: the extractor computes both statistics after discarding
empty/whitespace-only paragraphs: `word_count` is the total number of
whitespace-separated tokens of the retained paragraph texts taken together,
and `paragraph_count` is the number of retained paragraphs. -/
theorem extraction_counts (doc : Doc) :
    (mkContent doc).word_count
      = ((retainedParagraphs doc).map (fun p => (splitWS p.data).length)).sum
    ∧ (mkContent doc).paragraph_count = (retainedParagraphs doc).length := by
  constructor
  · show (splitWS (pyJoin " " (retainedParagraphs doc)).data).length = _
    rw [splitWS_pyJoin_space, List.length_flatten, List.map_map]
    rfl
  · rfl

/-! ### Claim C9 -/

/-- C9: the generation client is constructed before the document is opened:
whatever the parser and the generation service would do for this file —
including a corrupt document or a parser that raises — a failure constructing
the client yields the error record for that file, with no generation call. -/
theorem client_failure_before_parse (e p m : String)
    (openDoc : String → Except String Doc)
    (generate : String → String → Except String String) :
    process_file ⟨Except.error e, openDoc, generate⟩ p m = (errorRecord p e, 0) := rfl

/-! ### Claim C10 -/

/-- C10: a success record carries no `error` key at all, so a generation call
that returns the empty string still renders as a normal report — metadata
header, empty essay body and model footer — and never as an error report. -/
theorem empty_generation_normal_report (env : Env) (p m mn ts : String) (doc : Doc)
    (h1 : env.newClient = .ok ()) (h2 : env.openDoc p = .ok doc)
    (h3 : (mkContent doc).paragraphs ≠ "")
    (h4 : env.generate m (buildPrompt p (mkContent doc)) = .ok "") :
    (process_file env p m).1.error = none
    ∧ (process_file env p m).1.essay = ""
    ∧ renderReport mn ts (process_file env p m).1
        = reportHeader ts (process_file env p m).1 ++ "" ++ reportFooter mn
    ∧ ∀ rest, renderReport mn ts (process_file env p m).1 ≠ "# Error: " ++ rest := by
  have hres : (process_file env p m).1
      = { file_path := p, content := some (mkContent doc),
          essay := "", error := none } := by
    simp [process_file, h1, h2, h3, h4]
  refine ⟨by rw [hres], by rw [hres], by rw [hres]; rfl, ?_⟩
  intro rest hcontra
  obtain ⟨tail, htail⟩ :=
    renderReport_head_of_none mn ts (process_file env p m).1 (by rw [hres])
  have hd := congrArg String.data hcontra
  rw [htail, String.data_append] at hd
  have h5 := congrArg (List.take 3) hd
  rw [List.take_append_of_le_length (by decide),
    List.take_append_of_le_length (by decide)] at h5
  exact absurd h5 (by decide)

/-- Witness for `empty_generation_normal_report`: a concrete world whose
generation call succeeds with the empty string. -/
theorem empty_generation_normal_report_witness :
    (process_file envEmptyGen "d.docx" "m").1.error = none
    ∧ (process_file envEmptyGen "d.docx" "m").1.essay = "" := by
  have h := empty_generation_normal_report envEmptyGen "d.docx" "m" "mn" ts0 docHello
    rfl rfl (by decide) rfl
  exact ⟨h.1, h.2.1⟩
